import Mathlib

/-!
Verification of the collaborative-study-room real-time core
(`app/core/timer_manager.py`, `app/routers/websocket.py`, `app/crud.py`)
against its specification.

The timer engine is embedded as an explicit state machine: manager
operations (`start`, `pause`, `resume`, `stop`, `reset`) are atomic state
transformers (each runs entirely under `self._lock` in the source), and the
background coroutine `TimerManager._run` is embedded as a small-step
transition `runStep` over an explicit program counter, so that arbitrary
interleavings of manager calls and task wake-ups can be examined.
Notifications passed to the `broadcast_cb` callback are recorded in an
event list in the order they are awaited.
-/

namespace StudyRoom

/-- `class TimerInfo` of `app/core/timer_manager.py`: per-room countdown
state.  Python integers are embedded as `Int`. -/
structure TimerInfo where
  duration : Int
  remaining : Int
  is_running : Bool
deriving DecidableEq, Repr

/-- One invocation of the `broadcast_cb(room_id, remaining, is_running,
duration)` callback, in the four-positional-argument form used at every
call site inside `TimerManager`. -/
structure Note where
  room : Nat
  remaining : Int
  is_running : Bool
  duration : Int
deriving DecidableEq, Repr

/-- Association-list lookup, embedding `dict.get(key)` on the manager's
`self.timers` / `self.tasks` dictionaries. -/
def dictGet {α : Type} : Nat → List (Nat × α) → Option α
  | _, [] => none
  | k, (k2, v) :: rest => if k = k2 then some v else dictGet k rest

/-- Embedding of `dict.pop(key, None)`: drop the binding for `k`. -/
def eraseKey {α : Type} : Nat → List (Nat × α) → List (Nat × α)
  | _, [] => []
  | k, (k2, v) :: rest =>
    if k = k2 then eraseKey k rest else (k2, v) :: eraseKey k rest

/-- Embedding of `dict[key] = value`. -/
def dictSet {α : Type} (k : Nat) (v : α) (l : List (Nat × α)) :
    List (Nat × α) :=
  (k, v) :: eraseKey k l

/-- Program counter of the `TimerManager._run` coroutine.  `check1` is the
top-of-loop block (first `async with self._lock`), `sleeping` is
`await asyncio.sleep(1)`, `check2` is the post-sleep block (second
`async with self._lock`). -/
inductive PC where
  | check1
  | sleeping
  | check2
deriving DecidableEq, Repr

/-- One live `asyncio.Task` running `TimerManager._run(room_id, duration,
broadcast_cb)`.  `cancelled` records a pending `Task.cancel()` that the
task has not yet observed. -/
structure RunTask where
  tid : Nat
  room : Nat
  dur : Int
  pc : PC
  cancelled : Bool
deriving DecidableEq, Repr

/-- Whole-engine state: the manager's two dictionaries, the set of live
tasks, and the trace of callback invocations made so far. -/
structure EngineState where
  timers : List (Nat × TimerInfo)
  tasks : List (Nat × Nat)
  live : List RunTask
  notes : List Note
  nextTid : Nat
deriving DecidableEq, Repr

def initState : EngineState :=
  { timers := [], tasks := [], live := [], notes := [], nextTid := 0 }

namespace TimerManager

/-- Mark the task with id `tid` as cancelled (`asyncio.Task.cancel()`);
the task observes this at its next suspension point. -/
def cancelTid (tid : Nat) (l : List RunTask) : List RunTask :=
  l.map (fun t => if t.tid = tid then { t with cancelled := true } else t)

/-- `TimerManager.start(room_id, duration, broadcast_cb)`.  If both a
`TimerInfo` and a task entry exist for the room, the task is cancelled and
both entries popped; then fresh state `{duration, remaining=duration,
is_running=True}` is installed and a new `_run` task is created. -/
def start (room : Nat) (d : Int) (st : EngineState) : EngineState :=
  let st1 :=
    match dictGet room st.timers, dictGet room st.tasks with
    | some _, some tid =>
      { st with
        live := cancelTid tid st.live,
        timers := eraseKey room st.timers,
        tasks := eraseKey room st.tasks }
    | _, _ => st
  let t : RunTask :=
    { tid := st1.nextTid, room := room, dur := d, pc := PC.check1,
      cancelled := false }
  { st1 with
    timers := dictSet room ⟨d, d, true⟩ st1.timers,
    tasks := dictSet room st1.nextTid st1.tasks,
    live := st1.live ++ [t],
    nextTid := st1.nextTid + 1 }

/-- `TimerManager.pause(room_id)`: set `is_running = False` on existing
state; no-op when the room has no state. -/
def pause (room : Nat) (st : EngineState) : EngineState :=
  match dictGet room st.timers with
  | none => st
  | some info =>
    { st with timers := dictSet room { info with is_running := false } st.timers }

/-- `TimerManager.resume(room_id, broadcast_cb)`: no-op when state is
missing or already running; otherwise set `is_running = True` and spawn a
fresh `_run(room_id, info.duration, broadcast_cb)` task. -/
def resume (room : Nat) (st : EngineState) : EngineState :=
  match dictGet room st.timers with
  | none => st
  | some info =>
    if info.is_running then st
    else
      let t : RunTask :=
        { tid := st.nextTid, room := room, dur := info.duration,
          pc := PC.check1, cancelled := false }
      { st with
        timers := dictSet room { info with is_running := true } st.timers,
        tasks := dictSet room st.nextTid st.tasks,
        live := st.live ++ [t],
        nextTid := st.nextTid + 1 }

/-- `TimerManager.stop(room_id)`: cancel the registered task, if any, and
pop both the `timers` and `tasks` entries. -/
def stop (room : Nat) (st : EngineState) : EngineState :=
  let st1 :=
    match dictGet room st.tasks with
    | some tid => { st with live := cancelTid tid st.live }
    | none => st
  { st1 with
    timers := eraseKey room st1.timers,
    tasks := eraseKey room st1.tasks }

/-- `TimerManager.reset(room_id, duration, broadcast_cb)`: with a duration,
replace the state by `{duration, remaining=duration, is_running=False}`;
without one, restore `remaining = duration` and clear `is_running` on
existing state.  Afterwards (outside the lock) re-read the state and, when
present, await one callback with the resulting snapshot. -/
def reset (room : Nat) (d : Option Int) (st : EngineState) : EngineState :=
  let st1 :=
    match d with
    | some dur =>
      { st with timers := dictSet room ⟨dur, dur, false⟩ st.timers }
    | none =>
      match dictGet room st.timers with
      | some info =>
        { st with
          timers :=
            dictSet room
              { info with remaining := info.duration, is_running := false }
              st.timers }
      | none => st
  match dictGet room st1.timers with
  | some info =>
    { st1 with
      notes :=
        st1.notes ++ [⟨room, info.remaining, info.is_running, info.duration⟩] }
  | none => st1

/-- `TimerManager.get_state(room_id)`: snapshot of the room's state, or
`none`. -/
def get_state (room : Nat) (st : EngineState) : Option TimerInfo :=
  dictGet room st.timers

/-- The `finally:` clause of `_run` (pop the room's task entry) together
with termination of the coroutine itself. -/
def exitCleanup (room : Nat) (tid : Nat) (st : EngineState) : EngineState :=
  { st with
    tasks := eraseKey room st.tasks,
    live := st.live.filter (fun t => t.tid ≠ tid) }

/-- Replace the program counter of task `tid`. -/
def setPC (tid : Nat) (p : PC) (st : EngineState) : EngineState :=
  { st with
    live := st.live.map (fun t => if t.tid = tid then { t with pc := p } else t) }

/-- One scheduler step of the `_run` coroutine with task id `tid`,
transcribing `TimerManager._run`:

* a cancelled task runs the `except asyncio.CancelledError` handler: it
  re-reads the room's state and, when present, awaits one callback with
  that snapshot, then re-raises and runs the `finally` cleanup;
* at `check1` (top of loop, under the lock): missing state or
  `is_running` false sends the final-state callback and breaks;
  `remaining <= 0` clears `is_running`, sends `(0, False, duration)` and
  breaks; otherwise the task proceeds to the sleep;
* at `sleeping`: the one-second sleep elapses (one time unit);
* at `check2` (post-sleep, under the lock): missing state or `is_running`
  false breaks **without** any callback; otherwise `remaining` is set to
  `max 0 (remaining - 1)` and one `(remaining, True, duration)` callback
  is awaited, returning to the top of the loop. -/
def runStep (tid : Nat) (st : EngineState) : EngineState :=
  match st.live.find? (fun t => t.tid == tid) with
  | none => st
  | some t =>
    if t.cancelled then
      let st2 :=
        match dictGet t.room st.timers with
        | some info =>
          { st with
            notes :=
              st.notes ++
                [⟨t.room, info.remaining, info.is_running, info.duration⟩] }
        | none => st
      exitCleanup t.room tid st2
    else
      match t.pc with
      | PC.check1 =>
        match dictGet t.room st.timers with
        | none =>
          exitCleanup t.room tid
            { st with notes := st.notes ++ [⟨t.room, 0, false, t.dur⟩] }
        | some info =>
          if info.is_running = false then
            exitCleanup t.room tid
              { st with
                notes :=
                  st.notes ++ [⟨t.room, info.remaining, false, info.duration⟩] }
          else if info.remaining ≤ 0 then
            exitCleanup t.room tid
              { st with
                timers := dictSet t.room { info with is_running := false } st.timers,
                notes := st.notes ++ [⟨t.room, 0, false, info.duration⟩] }
          else
            setPC tid PC.sleeping st
      | PC.sleeping => setPC tid PC.check2 st
      | PC.check2 =>
        match dictGet t.room st.timers with
        | none => exitCleanup t.room tid st
        | some info =>
          if info.is_running = false then
            exitCleanup t.room tid st
          else
            let r2 := max 0 (info.remaining - 1)
            setPC tid PC.check1
              { st with
                timers := dictSet t.room { info with remaining := r2 } st.timers,
                notes := st.notes ++ [⟨t.room, r2, true, info.duration⟩] }

end TimerManager

/-- A schedulable event: one manager operation or one scheduler step of a
live `_run` task. -/
inductive Cmd where
  | start (room : Nat) (d : Int)
  | pause (room : Nat)
  | resume (room : Nat)
  | stop (room : Nat)
  | reset (room : Nat) (d : Option Int)
  | step (tid : Nat)
deriving DecidableEq, Repr

def exec : Cmd → EngineState → EngineState
  | Cmd.start room d, st => TimerManager.start room d st
  | Cmd.pause room, st => TimerManager.pause room st
  | Cmd.resume room, st => TimerManager.resume room st
  | Cmd.stop room, st => TimerManager.stop room st
  | Cmd.reset room d, st => TimerManager.reset room d st
  | Cmd.step tid, st => TimerManager.runStep tid st

/-- Run a schedule of events from a state. -/
def run (cs : List Cmd) (st : EngineState) : EngineState :=
  cs.foldl (fun s c => exec c s) st

/-- `n` consecutive scheduler steps of task `tid`. -/
def ticks (tid n : Nat) : List Cmd :=
  List.replicate n (Cmd.step tid)

/-- Canonical single-task mid-countdown state: room `room` holds
`{duration := d, remaining := r, is_running := true}`, its registered task
`tid` sits at the top of the `_run` loop, and `ns` callbacks have been
made so far. -/
def midState (room : Nat) (d r : Int) (tid ntid : Nat) (ns : List Note) :
    EngineState :=
  { timers := [(room, ⟨d, r, true⟩)],
    tasks := [(room, tid)],
    live := [⟨tid, room, d, PC.check1, false⟩],
    notes := ns,
    nextTid := ntid }

/-- Canonical paused state after the ticking task has already exited: the
room keeps `{duration := d, remaining := r, is_running := false}` and no
task is registered or live. -/
def pausedState (room : Nat) (d r : Int) (ntid : Nat) (ns : List Note) :
    EngineState :=
  { timers := [(room, ⟨d, r, false⟩)],
    tasks := [],
    live := [],
    notes := ns,
    nextTid := ntid }

/-- Canonical state where `pause` has just cleared `is_running` while the
room's task is still suspended in `asyncio.sleep(1)`: on wake the task
will run the post-sleep check. -/
def pausedSleepState (room : Nat) (d r : Int) (tid ntid : Nat)
    (ns : List Note) : EngineState :=
  { timers := [(room, ⟨d, r, false⟩)],
    tasks := [(room, tid)],
    live := [⟨tid, room, d, PC.check2, false⟩],
    notes := ns,
    nextTid := ntid }

/-- Canonical state where `pause` has just cleared `is_running` while the
room's task is at the top of its loop: it will run the first check next. -/
def pausedTopState (room : Nat) (d r : Int) (tid ntid : Nat)
    (ns : List Note) : EngineState :=
  { timers := [(room, ⟨d, r, false⟩)],
    tasks := [(room, tid)],
    live := [⟨tid, room, d, PC.check1, false⟩],
    notes := ns,
    nextTid := ntid }

/-- The countdown tick notifications emitted by `_run` while `remaining`
descends from `k` (exclusive) to `0` (inclusive): remaining values
`k - 1, k - 2, ..., 0`, each reported with `is_running = true`. -/
def cdNotes (room : Nat) (d : Int) : Nat → List Note
  | 0 => []
  | k + 1 => ⟨room, (k : Int), true, d⟩ :: cdNotes room d k

/-- A websocket connection handle.  `send_json` on a `closed` handle
raises; on a live one it succeeds. -/
structure Conn where
  cid : Nat
  closed : Bool
deriving DecidableEq, Repr

/-- `ConnectionManager.active_connections`: room id → connections of that
room, in registration order. -/
abbrev CMState := List (Nat × List Conn)

/-- Modelled from the spec: `ConnectionManager.disconnect(room_id,
websocket)`.  `app/core/connection_manager.py` is not under `src/`; the
spec's Connection Registry contract says `disconnect(room_id, connection)`
removes `connection` from the room's subscriber set. -/
def CMdisconnect (room : Nat) (c : Conn) (m : CMState) : CMState :=
  m.map (fun p => if p.1 = room then (p.1, p.2.filter (fun x => x ≠ c)) else p)

/-- `websocket.send_json(payload)` on one connection: raises (an
exception, embedded as `Except.error`) exactly when the socket is already
closed. -/
def sendJson (c : Conn) : Except String Unit :=
  if c.closed then Except.error ("websocket closed") else Except.ok ()

/-- A JSON value, the shape of payloads handed to `send_json`. -/
inductive JVal where
  | jnum (n : Int)
  | jbool (b : Bool)
  | jstr (s : String)
  | jobj (fields : List (String × JVal))

/-- Keys of a JSON object. -/
def jkeys : JVal → List String
  | JVal.jobj fs => fs.map Prod.fst
  | _ => []

/-- The `"timer"` object built inside the coordinator's sink
`timer_broadcast` (`app/routers/websocket.py` lines 109-118): it carries
`room_id`, `remaining` and `is_running` — and nothing else. -/
def timerField (room : Nat) (remaining : Int) (is_running : Bool) :
    List (String × JVal) :=
  [(("room_id"), JVal.jnum room),
   (("remaining"), JVal.jnum remaining),
   (("is_running"), JVal.jbool is_running)]

/-- The full `timer_update` payload sent by `timer_broadcast`. -/
def timerUpdatePayload (room : Nat) (remaining : Int) (is_running : Bool) :
    JVal :=
  JVal.jobj
    [(("event"), JVal.jstr ("timer_update")),
     (("timer"), JVal.jobj (timerField room remaining is_running))]

/-- Parameter count of `async def timer_broadcast(room_id, remaining,
is_running)` (`app/routers/websocket.py` line 98): three positional
parameters, no defaults, no varargs. -/
def timer_broadcast_param_count : Nat := 3

/-- Positional-argument count at every `broadcast_cb(...)` call site
inside `TimerManager` (`_run` and `reset` always pass `room_id`,
`remaining`, `is_running`, `duration`). -/
def broadcast_cb_arg_count : Nat := 4

/-- A Python positional call binds exactly when the number of supplied
positional arguments equals the callee's parameter count (for a callee
with no defaults and no varargs); otherwise it raises `TypeError`. -/
def posCallBinds (params args : Nat) : Bool := params == args

namespace Websocket

/-- One iteration of the `for conn in connections` loop of
`timer_broadcast`: `send_json` is wrapped in `try/except Exception`, so a
successful send records a delivery and a failure appends the connection to
the `disconnected` accumulator and the loop continues. -/
def fanoutStep (room : Nat) (remaining : Int) (is_running : Bool)
    (acc : List (Conn × JVal) × List Conn) (c : Conn) :
    List (Conn × JVal) × List Conn :=
  match sendJson c with
  | Except.ok _ =>
    (acc.1 ++ [(c, timerUpdatePayload room remaining is_running)], acc.2)
  | Except.error _ => (acc.1, acc.2 ++ [c])

/-- The fan-out of `timer_broadcast` (`app/routers/websocket.py` lines
98-125): iterate the room's current connections in order applying
`fanoutStep`; afterwards every collected failed connection is removed via
`manager.disconnect`.  Returns the updated registry together with the
deliveries made.  The function is total — no exception propagates to the
caller. -/
def timer_broadcast (room : Nat) (remaining : Int) (is_running : Bool)
    (m : CMState) : CMState × List (Conn × JVal) :=
  let connections := (dictGet room m).getD []
  let res := connections.foldl (fanoutStep room remaining is_running) ([], [])
  (res.2.foldl (fun mm c => CMdisconnect room c mm) m, res.1)

end Websocket

/-- Registry plus engine, the state touched by the disconnect handler. -/
structure SysState where
  cm : CMState
  eng : EngineState
deriving DecidableEq, Repr

/-- The `WebSocketDisconnect` handler of `websocket_endpoint`
(`app/routers/websocket.py` lines 214-218): deregister the socket from the
room, then, when `manager.active_connections.get(room_id)` is falsy
(missing or empty), call `timer_manager.stop(room_id)`.  The subsequent
`user_left` broadcast touches only the registry, never timer state. -/
def onDisconnect (room : Nat) (c : Conn) (s : SysState) : SysState :=
  let cm2 := CMdisconnect room c s.cm
  if ((dictGet room cm2).getD []).isEmpty then
    { cm := cm2, eng := TimerManager.stop room s.eng }
  else
    { cm := cm2, eng := s.eng }

/-- A persisted chat message (`models.Message`). -/
structure Message where
  id : Nat
  content : String
  timestamp : Nat
  user_id : Nat
  room_id : Nat
deriving DecidableEq, Repr

/-- The `ORDER BY Message.timestamp DESC` ordering of
`crud.get_recent_messages`: newest (largest timestamp) first. -/
def newestFirst (a b : Message) : Prop := b.timestamp ≤ a.timestamp

instance : DecidableRel newestFirst :=
  fun a b => Nat.decLe b.timestamp a.timestamp

instance : IsTotal Message newestFirst :=
  ⟨fun a b => le_total b.timestamp a.timestamp⟩

instance : IsTrans Message newestFirst :=
  ⟨fun _ _ _ hab hbc => le_trans hbc hab⟩

/-- `crud.get_recent_messages(db, room_id, limit=50)` (`app/crud.py` lines
309-316): the room's messages ordered by timestamp descending, limited to
`limit`.  The relational store is embedded as the list of all persisted
messages; `SELECT ... WHERE room_id = r ORDER BY timestamp DESC LIMIT n`
is embedded as filter, sort by `newestFirst`, take. -/
def get_recent_messages (db : List Message) (room_id : Nat) (limit : Nat) :
    List Message :=
  ((db.filter (fun msg => msg.room_id == room_id)).insertionSort newestFirst).take
    limit

/-- The default `limit = 50` of `get_recent_messages`; the websocket
replay calls the function without a limit argument, so this default
applies. -/
def recent_default_limit : Nat := 50

/-- The replay phase of `websocket_endpoint` (`app/routers/websocket.py`
lines 77-89): fetch the recent messages, then send them on this
connection only, iterating `reversed(recent_messages)`, each wrapped in a
`previous_message` event. -/
def replayEvents (db : List Message) (room_id : Nat) :
    List (String × Message) :=
  ((get_recent_messages db room_id recent_default_limit).reverse).map
    (fun msg => (("previous_message"), msg))

/-- Inbound timer-command content `data["content"]`: an `event` name and
an optional `duration`.  An absent `duration` is `none`. -/
structure TimerContent where
  event : String
  duration : Option Int
deriving DecidableEq, Repr

/-- The timer-command dispatch of `websocket_endpoint`
(`app/routers/websocket.py` lines 138-167): `start_timer` starts the room
timer with `content.get("duration", 1500)`; `pause_timer`,
`resume_timer` and `reset_timer` dispatch to the matching engine
operation; an unknown event leaves engine state unchanged and reports
`Unknown timer command` to the sender only. -/
def dispatchTimer (room : Nat) (content : TimerContent) (st : EngineState) :
    EngineState × Option String :=
  if content.event = "start_timer" then
    (TimerManager.start room (content.duration.getD 1500) st, none)
  else if content.event = "pause_timer" then
    (TimerManager.pause room st, none)
  else if content.event = "resume_timer" then
    (TimerManager.resume room st, none)
  else if content.event = "reset_timer" then
    (TimerManager.reset room content.duration st, none)
  else
    (st, some ("Unknown timer command"))

/-- A store of 51 messages of room 1 with distinct timestamps, used to
exhibit a message that falls outside the 50-message replay window. -/
def replayWitnessDb : List Message :=
  (List.range 51).map (fun i => ⟨i, ("m"), i, 0, 1⟩)

lemma dictGet_dictSet {α : Type} (k : Nat) (v : α) (l : List (Nat × α)) :
    dictGet k (dictSet k v l) = some v := by
  simp [dictGet, dictSet]

lemma dictGet_eraseKey_self {α : Type} (k : Nat) (l : List (Nat × α)) :
    dictGet k (eraseKey k l) = none := by
  induction l with
  | nil => simp [eraseKey, dictGet]
  | cons p l ih =>
    obtain ⟨k2, v⟩ := p
    by_cases h : k = k2
    · subst h; simp [eraseKey, ih]
    · simp [eraseKey, dictGet, h, ih]

lemma run_cons (c : Cmd) (cs : List Cmd) (st : EngineState) :
    run (c :: cs) st = run cs (exec c st) := rfl

lemma run_append (l1 l2 : List Cmd) (st : EngineState) :
    run (l1 ++ l2) st = run l2 (run l1 st) := by
  unfold run
  rw [List.foldl_append]

lemma ticks_add (tid m n : Nat) :
    ticks tid (m + n) = ticks tid m ++ ticks tid n := by
  unfold ticks
  rw [List.replicate_add]

lemma start_initState (room : Nat) (d : Int) :
    exec (Cmd.start room d) initState = midState room d d 0 1 [] := by
  simp [exec, TimerManager.start, initState, midState, dictGet, dictSet,
    eraseKey]

lemma loop3 (room : Nat) (d r : Int) (tid ntid : Nat) (ns : List Note)
    (hr : 0 < r) :
    run (ticks tid 3) (midState room d r tid ntid ns) =
      midState room d (r - 1) tid ntid (ns ++ [⟨room, r - 1, true, d⟩]) := by
  have h1 : ¬ r ≤ 0 := not_le.mpr hr
  have h2 : max 0 (r - 1) = r - 1 := max_eq_right (by omega)
  show run [Cmd.step tid, Cmd.step tid, Cmd.step tid]
      (midState room d r tid ntid ns) = _
  simp [run, exec, TimerManager.runStep, midState, dictGet, dictSet, eraseKey,
    TimerManager.setPC, List.find?, h1, h2]

lemma cdNotes_length (room : Nat) (d : Int) (k : Nat) :
    (cdNotes room d k).length = k := by
  induction k with
  | zero => simp [cdNotes]
  | succ k ih => simp [cdNotes, ih]

lemma descend (room : Nat) (d : Int) (tid ntid : Nat) (k : Nat) :
    ∀ ns : List Note,
      run (ticks tid (3 * k)) (midState room d (k : Int) tid ntid ns) =
        midState room d 0 tid ntid (ns ++ cdNotes room d k) := by
  induction k with
  | zero => intro ns; simp [ticks, run, cdNotes]
  | succ k ih =>
    intro ns
    rw [show 3 * (k + 1) = 3 + 3 * k by ring, ticks_add, run_append]
    rw [show ((k + 1 : Nat) : Int) = (k : Int) + 1 by push_cast; ring]
    rw [loop3 room d ((k : Int) + 1) tid ntid ns (by positivity)]
    rw [show (k : Int) + 1 - 1 = (k : Int) by ring]
    rw [ih]
    simp [cdNotes]

lemma final_step (room : Nat) (d : Int) (tid ntid : Nat) (ns : List Note) :
    run [Cmd.step tid] (midState room d 0 tid ntid ns) =
      { timers := [(room, ⟨d, 0, false⟩)], tasks := [], live := [],
        notes := ns ++ [⟨room, 0, false, d⟩], nextTid := ntid } := by
  simp [run, exec, TimerManager.runStep, midState, dictGet, dictSet, eraseKey,
    TimerManager.exitCleanup, List.find?]

/-- C3: for every duration `d > 0`, `start(room, d, notify)` followed by
`d` elapsed time units with no intervening commands makes exactly `d + 1`
callback invocations — tick notifications with `remaining` descending
`d - 1, ..., 0` followed by one terminal `(0, is_running := false)`
notification — and the task terminates; for `d = 0` the task terminates
immediately after exactly one `(0, false)` notification. -/
theorem start_countdown_notification_trace (room : Nat) (d : Int)
    (hd : 0 < d) :
    (run (Cmd.start room d :: ticks 0 (3 * d.toNat + 1)) initState).notes =
        cdNotes room d d.toNat ++ [⟨room, 0, false, d⟩]
    ∧ (run (Cmd.start room d :: ticks 0 (3 * d.toNat + 1)) initState).notes.length
        = d.toNat + 1
    ∧ (run (Cmd.start room d :: ticks 0 (3 * d.toNat + 1)) initState).live = []
    ∧ (∀ room2 : Nat,
        (run [Cmd.start room2 0, Cmd.step 0] initState).notes =
            [⟨room2, 0, false, 0⟩]
        ∧ (run [Cmd.start room2 0, Cmd.step 0] initState).live = []) := by
  have hcast : ((d.toNat : Nat) : Int) = d := Int.toNat_of_nonneg (le_of_lt hd)
  have hrun : run (Cmd.start room d :: ticks 0 (3 * d.toNat + 1)) initState =
      { timers := [(room, ⟨d, 0, false⟩)], tasks := [], live := [],
        notes := cdNotes room d d.toNat ++ [⟨room, 0, false, d⟩],
        nextTid := 1 } := by
    rw [run_cons, start_initState, ticks_add, run_append]
    rw [show midState room d d 0 1 [] =
        midState room d ((d.toNat : Nat) : Int) 0 1 [] by rw [hcast]]
    rw [descend room d 0 1 d.toNat []]
    rw [show ticks 0 1 = [Cmd.step 0] from rfl]
    rw [final_step]
    simp
  refine ⟨by rw [hrun], by rw [hrun]; simp [cdNotes_length], by rw [hrun], ?_⟩
  intro room2
  rw [show [Cmd.start room2 0, Cmd.step 0] =
      Cmd.start room2 0 :: [Cmd.step 0] from rfl, run_cons, start_initState,
    final_step]
  constructor <;> simp

/-- Witness for C3 at `room = 7`, `d = 3`. -/
theorem start_countdown_notification_trace_witness :
    (0 : Int) < 3 ∧
    (run (Cmd.start 7 3 :: ticks 0 (3 * (3 : Int).toNat + 1)) initState).notes =
        cdNotes 7 3 (3 : Int).toNat ++ [⟨7, 0, false, 3⟩] :=
  ⟨by decide, (start_countdown_notification_trace 7 3 (by decide)).1⟩

/-- C4: `pause` on existing state clears `is_running` leaving `remaining`
and `duration` unchanged and is a no-op without state; a paused task does
not decrement (its post-sleep check exits without touching the state);
`resume` is a no-op when state is missing or already running, otherwise it
sets `is_running` and a fresh task continues the countdown from the paused
`remaining` (first tick reports `r - 1`), not from `duration`. -/
theorem pause_resume_state_semantics (st : EngineState) (room : Nat)
    (info : TimerInfo) (h : TimerManager.get_state room st = some info) :
    TimerManager.get_state room (TimerManager.pause room st) =
        some ⟨info.duration, info.remaining, false⟩
    ∧ (∀ st2 : EngineState, TimerManager.get_state room st2 = none →
        TimerManager.pause room st2 = st2 ∧ TimerManager.resume room st2 = st2)
    ∧ (info.is_running = true → TimerManager.resume room st = st)
    ∧ (info.is_running = false →
        TimerManager.get_state room (TimerManager.resume room st) =
          some ⟨info.duration, info.remaining, true⟩)
    ∧ (∀ (d r : Int) (ns : List Note) (ntid : Nat), 0 < r →
        run (Cmd.resume room :: ticks ntid 3) (pausedState room d r ntid ns) =
          midState room d (r - 1) ntid (ntid + 1)
            (ns ++ [⟨room, r - 1, true, d⟩]))
    ∧ (∀ (d r : Int) (ns : List Note) (tid ntid : Nat),
        run [Cmd.step tid] (pausedSleepState room d r tid ntid ns) =
          { timers := [(room, ⟨d, r, false⟩)], tasks := [], live := [],
            notes := ns, nextTid := ntid }) := by
  unfold TimerManager.get_state at h
  refine ⟨?_, ?_, ?_, ?_, ?_, ?_⟩
  · simp [TimerManager.pause, TimerManager.get_state, h, dictGet_dictSet]
  · intro st2 h2
    unfold TimerManager.get_state at h2
    constructor <;> simp [TimerManager.pause, TimerManager.resume, h2]
  · intro hrun
    simp [TimerManager.resume, h, hrun]
  · intro hrun
    simp [TimerManager.resume, TimerManager.get_state, h, hrun, dictGet_dictSet]
  · intro d r ns ntid hr
    rw [run_cons]
    rw [show exec (Cmd.resume room) (pausedState room d r ntid ns) =
        midState room d r ntid (ntid + 1) ns by
      simp [exec, TimerManager.resume, pausedState, midState, dictGet,
        dictSet, eraseKey]]
    exact loop3 room d r ntid (ntid + 1) ns hr
  · intro d r ns tid ntid
    simp [run, exec, TimerManager.runStep, pausedSleepState, dictGet,
      eraseKey, TimerManager.exitCleanup, List.find?]

/-- Witness for C4 at a paused room 4 with `duration = 10`,
`remaining = 3`. -/
theorem pause_resume_state_semantics_witness :
    TimerManager.get_state 4 (TimerManager.pause 4 (pausedState 4 10 3 7 [])) =
        some ⟨10, 3, false⟩
    ∧ run (Cmd.resume 4 :: ticks 7 3) (pausedState 4 10 3 7 []) =
        midState 4 10 2 7 8 [⟨4, 2, true, 10⟩] := by
  have h := pause_resume_state_semantics (pausedState 4 10 3 7 []) 4
    ⟨10, 3, false⟩ (by decide)
  refine ⟨h.1, ?_⟩
  have h5 := h.2.2.2.2.1 10 3 [] 7 (by decide)
  norm_num at h5
  exact h5

/-- C5 counterexample: a pause that lands while the ticking task is inside
`asyncio.sleep(1)` is observed at the post-sleep check, and the task exits
with **no** final notification at all — refuting the claim that the task
never exits without first sending a final paused-snapshot notification. -/
theorem pause_silent_exit_cex :
    (run [Cmd.start 0 5, Cmd.step 0, Cmd.pause 0, Cmd.step 0, Cmd.step 0]
        initState).live = []
    ∧ (run [Cmd.start 0 5, Cmd.step 0, Cmd.pause 0, Cmd.step 0, Cmd.step 0]
        initState).notes = [] := by
  decide

/-- C5 amended: the behavior depends on which check observes the pause.
Observed at the post-sleep check, the task exits silently (no callback);
observed at the top-of-loop check, the task sends exactly one final
notification carrying the paused snapshot
`(remaining, is_running := false, duration)` before exiting. -/
theorem pause_observation_point_behavior (room : Nat) (d r : Int)
    (ns : List Note) (tid ntid : Nat) :
    run [Cmd.step tid] (pausedSleepState room d r tid ntid ns) =
      { timers := [(room, ⟨d, r, false⟩)], tasks := [], live := [],
        notes := ns, nextTid := ntid }
    ∧ run [Cmd.step tid] (pausedTopState room d r tid ntid ns) =
      { timers := [(room, ⟨d, r, false⟩)], tasks := [], live := [],
        notes := ns ++ [⟨room, r, false, d⟩], nextTid := ntid } := by
  constructor <;>
    simp [run, exec, TimerManager.runStep, pausedSleepState, pausedTopState,
      dictGet, eraseKey, TimerManager.exitCleanup, List.find?]

/-- C1 violation: `start(0, 2)`, one scheduler step (the task reaches its
sleep), then `pause(0)` immediately followed by `resume(0)` before the
task wakes, leaves **two** live `_run` tasks for room 0; the old task then
wakes, sees `is_running = true` again, and keeps decrementing (tick note
`remaining = 1, is_running = true`) while the resume-spawned task is still
alive. -/
theorem pause_resume_leaves_two_tasks :
    ((run [Cmd.start 0 2, Cmd.step 0, Cmd.pause 0, Cmd.resume 0]
        initState).live.filter (fun t => t.room == 0)).length = 2
    ∧ (run [Cmd.start 0 2, Cmd.step 0, Cmd.pause 0, Cmd.resume 0, Cmd.step 0,
        Cmd.step 0] initState).notes = [⟨0, 1, true, 2⟩]
    ∧ (run [Cmd.start 0 2, Cmd.step 0, Cmd.pause 0, Cmd.resume 0, Cmd.step 0,
        Cmd.step 0] initState).live.length = 2 := by
  decide

/-- C6: `reset` with a duration replaces the room's state by
`{duration, remaining = duration, is_running = false}` (prior state or
not) and emits exactly one notification with that snapshot; without a
duration it restores `remaining` to the configured `duration`, clears
`is_running` and emits exactly one notification with the resulting
snapshot; with no prior state and no duration it is a silent no-op. -/
theorem reset_semantics (st : EngineState) (room : Nat) (d : Int) :
    (TimerManager.get_state room (TimerManager.reset room (some d) st) =
        some ⟨d, d, false⟩
      ∧ (TimerManager.reset room (some d) st).notes =
          st.notes ++ [⟨room, d, false, d⟩])
    ∧ (∀ info : TimerInfo, TimerManager.get_state room st = some info →
        TimerManager.get_state room (TimerManager.reset room none st) =
            some ⟨info.duration, info.duration, false⟩
        ∧ (TimerManager.reset room none st).notes =
            st.notes ++ [⟨room, info.duration, false, info.duration⟩])
    ∧ (TimerManager.get_state room st = none →
        TimerManager.reset room none st = st) := by
  refine ⟨?_, ?_, ?_⟩
  · constructor <;>
      simp [TimerManager.reset, TimerManager.get_state, dictGet_dictSet]
  · intro info hinfo
    unfold TimerManager.get_state at hinfo
    constructor <;>
      simp [TimerManager.reset, TimerManager.get_state, hinfo, dictGet_dictSet]
  · intro hnone
    unfold TimerManager.get_state at hnone
    simp [TimerManager.reset, hnone]

/-- Witness for C6 at a room with prior state `{duration = 10,
remaining = 4, is_running = true}`. -/
theorem reset_semantics_witness :
    TimerManager.get_state 3
        (TimerManager.reset 3 none
          { timers := [(3, ⟨10, 4, true⟩)], tasks := [], live := [],
            notes := [], nextTid := 0 }) = some ⟨10, 10, false⟩
    ∧ (TimerManager.reset 3 none
          { timers := [(3, ⟨10, 4, true⟩)], tasks := [], live := [],
            notes := [], nextTid := 0 }).notes = [⟨3, 10, false, 10⟩] := by
  have h := (reset_semantics
    { timers := [(3, ⟨10, 4, true⟩)], tasks := [], live := [],
      notes := [], nextTid := 0 } 3 7).2.1 ⟨10, 4, true⟩ (by decide)
  simpa using h

lemma get_state_start (room : Nat) (d : Int) (st : EngineState) :
    TimerManager.get_state room (TimerManager.start room d st) =
      some ⟨d, d, true⟩ := by
  simp [TimerManager.start, TimerManager.get_state, dictGet_dictSet]

/-- C10: an inbound `start_timer` command whose content omits `duration`
starts the room's timer with the default `1500` seconds, leaving the room
in state `{duration = 1500, remaining = 1500, is_running = true}`. -/
theorem start_timer_default_1500 (room : Nat) (st : EngineState)
    (ev : TimerContent) (h1 : ev.event = "start_timer")
    (h2 : ev.duration = none) :
    dispatchTimer room ev st = (TimerManager.start room 1500 st, none)
    ∧ TimerManager.get_state room (dispatchTimer room ev st).1 =
        some ⟨1500, 1500, true⟩ := by
  constructor
  · simp [dispatchTimer, h1, h2]
  · simp [dispatchTimer, h1, h2, get_state_start]

/-- Witness for C10: a `start_timer` command with no duration on room 2
from the empty engine. -/
theorem start_timer_default_1500_witness :
    dispatchTimer 2 ⟨("start_timer"), none⟩ initState =
        (TimerManager.start 2 1500 initState, none)
    ∧ TimerManager.get_state 2
        (dispatchTimer 2 ⟨("start_timer"), none⟩ initState).1 =
        some ⟨1500, 1500, true⟩ :=
  start_timer_default_1500 2 initState ⟨("start_timer"), none⟩ rfl rfl

/-- C2 refutation: the engine does invoke its callback with the four
positional arguments `(room_id, remaining, is_running, duration)` — the
first tick of `start(1, 5)` awaits `broadcast_cb(1, 4, True, 5)` — but the
coordinator's sink `timer_broadcast` declares only three parameters, so
the four-argument positional call cannot bind (a `TypeError` in Python),
and the `timer_update` payload the sink builds has no `duration` key. -/
theorem sink_arity_and_payload_mismatch :
    posCallBinds timer_broadcast_param_count broadcast_cb_arg_count = false
    ∧ ("duration") ∉ (timerField 1 4 true).map Prod.fst
    ∧ ("duration") ∉ jkeys (timerUpdatePayload 1 4 true)
    ∧ (run [Cmd.start 1 5, Cmd.step 0, Cmd.step 0, Cmd.step 0]
        initState).notes = [⟨1, 4, true, 5⟩] := by
  refine ⟨rfl, by decide, by decide, by decide⟩

lemma fanout_loop (room : Nat) (remaining : Int) (is_running : Bool) :
    ∀ (l : List Conn) (acc : List (Conn × JVal) × List Conn),
      l.foldl (Websocket.fanoutStep room remaining is_running) acc =
        (acc.1 ++ (l.filter (fun c => !c.closed)).map
            (fun c => (c, timerUpdatePayload room remaining is_running)),
         acc.2 ++ l.filter (fun c => c.closed))
  | [], acc => by simp
  | c :: l, acc => by
    by_cases hc : c.closed <;>
      simp [Websocket.fanoutStep, sendJson, hc,
        fanout_loop room remaining is_running l]

lemma dictGet_CMdisconnect (r room : Nat) (c : Conn) (m : CMState) :
    dictGet r (CMdisconnect room c m) =
      if r = room then
        (dictGet r m).map (fun l => l.filter (fun x => x ≠ c))
      else dictGet r m := by
  induction m with
  | nil => simp [CMdisconnect, dictGet]
  | cons p m ih =>
    obtain ⟨k, conns⟩ := p
    show dictGet r
        ((if k = room then (k, conns.filter (fun x => x ≠ c)) else (k, conns))
          :: CMdisconnect room c m) = _
    by_cases h1 : k = room
    · rw [if_pos h1]
      by_cases h2 : r = k
      · subst h2
        simp [dictGet, h1, ih]
      · simp [dictGet, h2, ih]
    · rw [if_neg h1]
      by_cases h2 : r = k
      · subst h2
        simp [dictGet, h1]
      · simp [dictGet, h1, h2, ih]

lemma dictGet_disconnect_foldl (room : Nat) :
    ∀ (ds : List Conn) (m : CMState),
      dictGet room (ds.foldl (fun mm c => CMdisconnect room c mm) m) =
        (dictGet room m).map
          (fun l => l.filter (fun x => decide (x ∉ ds)))
  | [], m => by simp
  | d :: ds, m => by
    rw [List.foldl_cons,
      dictGet_disconnect_foldl room ds (CMdisconnect room d m)]
    rw [dictGet_CMdisconnect room room d m, if_pos rfl]
    cases hm : dictGet room m with
    | none => simp
    | some l =>
      simp only [Option.map_some', Option.map_map, Function.comp]
      congr 1
      rw [List.filter_filter]
      apply List.filter_congr
      intro x _
      by_cases hx1 : x = d <;> by_cases hx2 : x ∈ ds <;> simp [hx1, hx2]

lemma dictGet_disconnect_foldl_ne (room r : Nat) (hne : r ≠ room) :
    ∀ (ds : List Conn) (m : CMState),
      dictGet r (ds.foldl (fun mm c => CMdisconnect room c mm) m) =
        dictGet r m
  | [], m => by simp
  | d :: ds, m => by
    rw [List.foldl_cons,
      dictGet_disconnect_foldl_ne room r hne ds (CMdisconnect room d m)]
    rw [dictGet_CMdisconnect r room d m, if_neg hne]

/-- C7: `timer_broadcast` delivers the `timer_update` payload to every
connection registered for the room at call time that is still live, in
registration order; a failing (closed) connection aborts neither the
remaining deliveries nor the caller (the function is total), and every
failed connection — and only those — is removed from the room's subscriber
set, other rooms being untouched. -/
theorem broadcast_fanout_delivery (room : Nat) (remaining : Int)
    (is_running : Bool) (m : CMState) :
    (Websocket.timer_broadcast room remaining is_running m).2 =
        (((dictGet room m).getD []).filter (fun c => !c.closed)).map
          (fun c => (c, timerUpdatePayload room remaining is_running))
    ∧ dictGet room (Websocket.timer_broadcast room remaining is_running m).1 =
        (dictGet room m).map (fun l => l.filter (fun c => !c.closed))
    ∧ (∀ r2 : Nat, r2 ≠ room →
        dictGet r2 (Websocket.timer_broadcast room remaining is_running m).1 =
          dictGet r2 m) := by
  simp only [Websocket.timer_broadcast]
  rw [fanout_loop room remaining is_running]
  refine ⟨by simp, ?_, ?_⟩
  · simp only [List.nil_append]
    rw [dictGet_disconnect_foldl room]
    cases hm : dictGet room m with
    | none => simp [hm]
    | some l =>
      simp only [hm, Option.getD_some, Option.map_some']
      congr 1
      apply List.filter_congr
      intro x hx
      by_cases hc : x.closed
      · have hmem : x ∈ l.filter (fun c => c.closed) :=
          List.mem_filter.mpr ⟨hx, by simp [hc]⟩
        simp [hc, hmem]
      · have hmem : x ∉ l.filter (fun c => c.closed) := by
          intro hmem
          exact hc (by simpa using (List.mem_filter.mp hmem).2)
        simp [hc, hmem]
  · intro r2 h2
    simp only [List.nil_append]
    rw [dictGet_disconnect_foldl_ne room r2 h2]

/-- Witness for C7: room 1 holds one live and one closed connection, room
2 another; broadcasting to room 1 delivers to the live connection only,
drops the closed one from room 1, and leaves room 2 untouched. -/
theorem broadcast_fanout_delivery_witness :
    (Websocket.timer_broadcast 1 4 true
        [(1, [⟨1, false⟩, ⟨2, true⟩]), (2, [⟨3, false⟩])]).2 =
      [(⟨1, false⟩, timerUpdatePayload 1 4 true)]
    ∧ dictGet 1 (Websocket.timer_broadcast 1 4 true
        [(1, [⟨1, false⟩, ⟨2, true⟩]), (2, [⟨3, false⟩])]).1 =
      some [⟨1, false⟩]
    ∧ dictGet 2 (Websocket.timer_broadcast 1 4 true
        [(1, [⟨1, false⟩, ⟨2, true⟩]), (2, [⟨3, false⟩])]).1 =
      some [⟨3, false⟩] := by
  have h := broadcast_fanout_delivery 1 4 true
    [(1, [⟨1, false⟩, ⟨2, true⟩]), (2, [⟨3, false⟩])]
  refine ⟨?_, ?_, ?_⟩
  · rw [h.1]; rfl
  · rw [h.2.1]; decide
  · rw [h.2.2 2 (by decide)]; decide

lemma get_state_stop (room : Nat) (st : EngineState) :
    TimerManager.get_state room (TimerManager.stop room st) = none := by
  cases hm : dictGet room st.tasks <;>
    simp [TimerManager.stop, TimerManager.get_state, hm, dictGet_eraseKey_self]

lemma tasks_stop (room : Nat) (st : EngineState) :
    dictGet room (TimerManager.stop room st).tasks = none := by
  cases hm : dictGet room st.tasks <;>
    simp [TimerManager.stop, hm, dictGet_eraseKey_self]

lemma cancelTid_mem (tid : Nat) (l : List RunTask) (t : RunTask)
    (ht : t ∈ TimerManager.cancelTid tid l) (htid : t.tid = tid) :
    t.cancelled = true := by
  unfold TimerManager.cancelTid at ht
  rcases List.mem_map.mp ht with ⟨x, hx, rfl⟩
  by_cases h : x.tid = tid
  · simp [h]
  · rw [if_neg h] at htid ⊢
    exact absurd htid h

lemma runStep_no_state (tid : Nat) (st : EngineState) (t : RunTask)
    (hfind : st.live.find? (fun x => x.tid == tid) = some t)
    (hnone : dictGet t.room st.timers = none) :
    (TimerManager.runStep tid st).timers = st.timers := by
  unfold TimerManager.runStep
  rw [hfind]
  by_cases hc : t.cancelled
  · simp [hc, hnone, TimerManager.exitCleanup]
  · cases hpc : t.pc <;>
      simp [hc, hpc, hnone, TimerManager.exitCleanup, TimerManager.setPC]

/-- C8: when a disconnect leaves the room's subscriber set empty, the
handler calls `timer_manager.stop(room_id)`: the room's timer state is
removed (`get_state` is absent), the task registration is gone, the
registered live task is marked cancelled, and no leftover task of that
room can ever tick again (any scheduler step of such a task leaves the
timers untouched). -/
theorem last_disconnect_stops_timer (room : Nat) (c : Conn) (s : SysState)
    (hempty :
      ((dictGet room (CMdisconnect room c s.cm)).getD []).isEmpty = true) :
    (onDisconnect room c s).eng = TimerManager.stop room s.eng
    ∧ TimerManager.get_state room (onDisconnect room c s).eng = none
    ∧ dictGet room (onDisconnect room c s).eng.tasks = none
    ∧ (∀ tid : Nat, dictGet room s.eng.tasks = some tid →
        ∀ t ∈ (onDisconnect room c s).eng.live, t.tid = tid →
          t.cancelled = true)
    ∧ (∀ (tid2 : Nat) (t2 : RunTask),
        (onDisconnect room c s).eng.live.find? (fun x => x.tid == tid2) =
            some t2 →
        t2.room = room →
        (TimerManager.runStep tid2 (onDisconnect room c s).eng).timers =
          (onDisconnect room c s).eng.timers) := by
  have heng : (onDisconnect room c s).eng = TimerManager.stop room s.eng := by
    simp [onDisconnect, hempty]
  refine ⟨heng, ?_, ?_, ?_, ?_⟩
  · rw [heng]; exact get_state_stop room s.eng
  · rw [heng]; exact tasks_stop room s.eng
  · intro tid hreg t ht htid
    rw [heng] at ht
    simp [TimerManager.stop, hreg] at ht
    exact cancelTid_mem tid s.eng.live t ht htid
  · intro tid2 t2 hfind hroom
    apply runStep_no_state tid2 _ t2 hfind
    rw [hroom, heng]
    have h := get_state_stop room s.eng
    unfold TimerManager.get_state at h
    exact h

/-- Witness for C8: room 5's only subscriber disconnects while a timer
with a live ticking task is running. -/
theorem last_disconnect_stops_timer_witness :
    (onDisconnect 5 ⟨1, false⟩
        ⟨[(5, [⟨1, false⟩])], midState 5 10 4 0 1 []⟩).eng =
      TimerManager.stop 5 (midState 5 10 4 0 1 [])
    ∧ TimerManager.get_state 5
        (onDisconnect 5 ⟨1, false⟩
          ⟨[(5, [⟨1, false⟩])], midState 5 10 4 0 1 []⟩).eng = none
    ∧ (⟨0, 5, 10, PC.check1, true⟩ : RunTask).cancelled = true := by
  have h := last_disconnect_stops_timer 5 ⟨1, false⟩
    ⟨[(5, [⟨1, false⟩])], midState 5 10 4 0 1 []⟩ (by decide)
  exact ⟨h.1, h.2.1,
    h.2.2.2.1 0 (by decide) ⟨0, 5, 10, PC.check1, true⟩ (by decide)
      (by decide)⟩

/-- C9: before the active loop the coordinator fetches the room's most
recent 50 messages (retrieved newest-first from storage: sorted by
timestamp descending, limited to 50) and delivers them to the connecting
client only, oldest-first, each tagged `previous_message`.  The last
conjunct states "most recent": any room message left out of the fetch is
no newer than every fetched one. -/
theorem replay_recent_messages_spec (db : List Message) (room : Nat) :
    List.Sorted newestFirst (get_recent_messages db room recent_default_limit)
    ∧ (get_recent_messages db room recent_default_limit).length =
        min recent_default_limit
          (db.filter (fun msg => msg.room_id == room)).length
    ∧ List.Sorted (fun a b : String × Message => a.2.timestamp ≤ b.2.timestamp)
        (replayEvents db room)
    ∧ (∀ e ∈ replayEvents db room, e.1 = "previous_message")
    ∧ (∀ e ∈ replayEvents db room, e.2 ∈ db ∧ e.2.room_id = room)
    ∧ (∀ m ∈ db, m.room_id = room →
        m ∉ get_recent_messages db room recent_default_limit →
        ∀ m2 ∈ get_recent_messages db room recent_default_limit,
          m.timestamp ≤ m2.timestamp) := by
  have hsorted : List.Sorted newestFirst
      ((db.filter (fun msg => msg.room_id == room)).insertionSort newestFirst) :=
    List.sorted_insertionSort newestFirst _
  have htake : List.Sorted newestFirst
      (get_recent_messages db room recent_default_limit) := by
    unfold get_recent_messages
    exact List.Pairwise.sublist (List.take_sublist _ _) hsorted
  refine ⟨htake, ?_, ?_, ?_, ?_, ?_⟩
  · simp [get_recent_messages, List.length_insertionSort]
  · unfold replayEvents
    refine List.pairwise_map.mpr (List.pairwise_reverse.mpr ?_)
    exact htake
  · intro e he
    unfold replayEvents at he
    rcases List.mem_map.mp he with ⟨msg, _, rfl⟩
    rfl
  · intro e he
    unfold replayEvents at he
    rcases List.mem_map.mp he with ⟨msg, hmsg, rfl⟩
    rw [List.mem_reverse] at hmsg
    have hmem : msg ∈ db.filter (fun x => x.room_id == room) := by
      have h1 := (List.take_sublist _ _).subset hmsg
      exact (List.mem_insertionSort newestFirst).mp h1
    rcases List.mem_filter.mp hmem with ⟨h2, h3⟩
    exact ⟨h2, by simpa using h3⟩
  · intro m hm hroom hout m2 hm2
    have hmem : m ∈
        (db.filter (fun msg => msg.room_id == room)).insertionSort newestFirst :=
      (List.mem_insertionSort newestFirst).mpr
        (List.mem_filter.mpr ⟨hm, by simp [hroom]⟩)
    rw [← List.take_append_drop recent_default_limit
      ((db.filter (fun msg => msg.room_id == room)).insertionSort newestFirst)]
      at hmem hsorted
    rcases List.mem_append.mp hmem with hin | hdrop
    · exact absurd hin hout
    · exact (List.pairwise_append.mp hsorted).2.2 m2 hm2 m hdrop

/-- Witness for C9: with 51 messages of room 1 (timestamps 0..50), the
timestamp-0 message falls outside the 50-message window and is no newer
than the fetched timestamp-1 message. -/
theorem replay_recent_messages_spec_witness :
    (⟨0, ("m"), 0, 0, 1⟩ : Message).timestamp ≤
      (⟨1, ("m"), 1, 0, 1⟩ : Message).timestamp :=
  (replay_recent_messages_spec replayWitnessDb 1).2.2.2.2.2
    ⟨0, ("m"), 0, 0, 1⟩ (by decide) (by decide) (by decide)
    ⟨1, ("m"), 1, 0, 1⟩ (by decide)

end StudyRoom
